import Mathlib

/-!
A shallow embedding of `src/inference.py` (the ComfyUI inference service):
the artifact resolver (`resolve_input_path`), the artifact publisher
(`upload_output`), the workflow submitter (`submit_workflow`), the
completion poller (`wait_for_completion`) and the `/invocations` handler
(`predict`).

Modelling conventions:
* Python strings are Lean `String`s; the character-level helpers below
  mirror the exact `str.replace` / `str.split("/", 1)` /
  `os.path.basename` / `os.path.join` operations the source performs.
* The filesystem is a value of type `FS` (a list of existing file paths
  and a list of existing directories); `os.path.exists`, `os.makedirs`
  and `os.rename` act on it explicitly.
* Network and OS oracles (S3 download/upload results, the HTTP response
  of ComfyUI's prompt endpoint, the per-tick outcome of the history
  poll, the enumeration order of `os.listdir`) are fields of explicit
  environment records; the code's behaviour is a function of those.
* Exceptions are `Except PyError`; `PyError`'s constructors separate the
  Python exception classes the source raises or meets
  (`ValueError`, `FileNotFoundError`, `requests.HTTPError`,
  `TimeoutError`, transport-level errors).
* Elapsed time inside the polling loop is idealised as
  `tick index * poll_interval`: each loop iteration costs exactly one
  `time.sleep(poll_interval)` and the status query itself costs nothing.
* Every externally visible side effect is recorded in an `Effect` trace
  in program order.
-/

namespace ComfyCloud

/-! ### Character-level string helpers (Python `str` operations) -/

/-- Python `uri.replace("s3://", "")`: delete every occurrence of the
five-character pattern `s3://`, scanning left to right. -/
def stripS3Chars : List Char → List Char
  | 's' :: '3' :: ':' :: '/' :: '/' :: rest => stripS3Chars rest
  | c :: rest => c :: stripS3Chars rest
  | [] => []

/-- `uri.replace("s3://", "")` on `String`. -/
def stripS3 (s : String) : String :=
  String.mk (stripS3Chars s.toList)

/-- Python `uri.startswith("s3://")`. -/
def hasS3Scheme (s : String) : Bool :=
  match s.toList with
  | 's' :: '3' :: ':' :: '/' :: '/' :: _ => true
  | _ => false

/-- Split a character list at the first `'/'`, returning the part before
and the part after; `none` when no slash occurs. -/
def breakSlash : List Char → Option (List Char × List Char)
  | [] => none
  | c :: rest =>
    if c = '/' then some ([], rest)
    else
      match breakSlash rest with
      | none => none
      | some (a, b) => some (c :: a, b)

/-- Python `s.split("/", 1)`: a list of one element (no slash present) or
of exactly two elements (head, remainder — the remainder may itself
contain slashes). -/
def splitSlashOnce (s : String) : List String :=
  match breakSlash s.toList with
  | none => [s]
  | some (a, b) => [String.mk a, String.mk b]

/-- Python `os.path.basename`: everything after the last `'/'` (the empty
string when the path ends in `'/'`). -/
def basenameOf (s : String) : String :=
  String.mk ((s.toList.reverse.takeWhile (fun c => c != '/')).reverse)

/-- Python `os.path.join(dir, name)` for the two-argument form the source
uses: an absolute `name` wins; otherwise they are glued with exactly one
`'/'`. -/
def pathJoin (dir name : String) : String :=
  if name.toList.head? = some '/' then name
  else if dir = "" then name
  else if dir.toList.getLast? = some '/' then dir ++ name
  else dir ++ "/" ++ name

/-- Python `f.endswith(".json")`. -/
def endsWithJson (s : String) : Bool :=
  decide (s.toList.reverse.take 5 = ['n', 'o', 's', 'j', '.'])

/-- `true` when `needle` occurs as a contiguous segment of `hay`
(Python `needle in hay` on strings). -/
def segOccursIn (needle : List Char) : List Char → Bool
  | [] => needle.isEmpty
  | c :: rest => decide ((c :: rest).take needle.length = needle) || segOccursIn needle rest

/-! ### Errors, access handles, effects -/

/-- The Python exception classes that flow through `inference.py`,
each carrying its message (`str(e)`). -/
inductive PyError where
  /-- `ValueError` (malformed S3 URI, missing `prompt_id`). -/
  | valueError (msg : String)
  /-- `FileNotFoundError` (missing local input, `os.rename` without a
  source, `os.listdir` on an absent directory). -/
  | fileNotFound (msg : String)
  /-- `requests.HTTPError` from `raise_for_status` (4xx/5xx status). -/
  | httpError (msg : String)
  /-- transport-level failure of an HTTP request (connection refused,
  request timeout, unparsable body). -/
  | transportError (msg : String)
  /-- `TimeoutError` raised by the poller when the wait budget runs out. -/
  | timeoutError (msg : String)
  /-- failure reported by the S3 client (`ClientError` etc.). -/
  | storageError (msg : String)
  deriving DecidableEq

/-- `str(e)` of a modelled exception. -/
def PyError.message : PyError → String
  | .valueError m => m
  | .fileNotFound m => m
  | .httpError m => m
  | .transportError m => m
  | .timeoutError m => m
  | .storageError m => m

/-- The access handle `upload_output` returns: a presigned URL (with the
bucket, key and expiry that produced it) or a local path. -/
inductive Handle where
  | presignedUrl (bucket key : String) (expiresIn : Nat)
  | localPath (p : String)
  deriving DecidableEq

/-- One externally visible side effect, recorded in program order. -/
inductive Effect where
  /-- `s3_client.download_file bucket key dest`. -/
  | download (bucket key dest : String)
  /-- `os.makedirs(dir, exist_ok=True)`. -/
  | mkdirs (dir : String)
  /-- `os.listdir dir`. -/
  | listDir (dir : String)
  /-- `open(path)` followed by `json.load`. -/
  | openFile (path : String)
  /-- `requests.post(COMFY_URL + "/prompt", ...)`. -/
  | submitted
  /-- the polling loop ran against `COMFY_URL + "/history/" + pid`. -/
  | polled (pid : String)
  /-- `s3_client.upload_file src bucket key`. -/
  | uploadS3 (src bucket key : String)
  /-- `s3_client.generate_presigned_url` with `ExpiresIn = expires`. -/
  | presign (bucket key : String) (expires : Nat)
  /-- `os.rename src dst`. -/
  | moved (src dst : String)
  /-- `logger.warning msg`. -/
  | warned (msg : String)
  deriving DecidableEq

/-! ### Filesystem and storage environment -/

/-- The filesystem state: paths of existing regular files and of existing
directories. -/
structure FS where
  files : List String
  dirs : List String
  deriving DecidableEq

/-- Python `os.path.exists p`. -/
def fsExists (fs : FS) (p : String) : Bool :=
  decide (p ∈ fs.files) || decide (p ∈ fs.dirs)

/-- The storage-facing environment: whether the module-level `s3_client`
was initialised (it is `None` after a failed `boto3.client` call), and
the outcome the S3 service gives each transfer. -/
structure StorageEnv where
  s3Available : Bool
  /-- result of `s3_client.download_file bucket key dest`. -/
  downloadResult : String → String → Except PyError Unit
  /-- result of `s3_client.upload_file src bucket key`. -/
  uploadResult : String → String → Except PyError Unit

/-! ### `resolve_input_path` (src/inference.py lines 31–56) -/

/-- The fixed staging directory, the default of `local_dir`. -/
def INPUTS_DIR : String := "/app/inputs"

/-- Embedding of `resolve_input_path(uri, local_dir)`.  Returns the
resolved local path (or the raised exception), the filesystem after the
call, and the trace of side effects. -/
def resolve_input_path (env : StorageEnv) (fs : FS) (uri : String)
    (local_dir : String := INPUTS_DIR) :
    Except PyError String × FS × List Effect :=
  if hasS3Scheme uri && env.s3Available then
    match splitSlashOnce (stripS3 uri) with
    | [bucket, key] =>
      let local_path := pathJoin local_dir (basenameOf key)
      let fs1 : FS := { fs with dirs := local_dir :: fs.dirs }
      match env.downloadResult bucket key with
      | .ok _ =>
        (.ok local_path, { fs1 with files := local_path :: fs1.files },
          [.mkdirs local_dir, .download bucket key local_path])
      | .error e =>
        (.error e, fs1, [.mkdirs local_dir, .download bucket key local_path])
    | _ => (.error (.valueError ("Invalid S3 URI format: " ++ uri)), fs, [])
  else
    if fsExists fs uri then (.ok uri, fs, [])
    else (.error (.fileNotFound ("Input file not found: " ++ uri)), fs, [])

/-! ### `upload_output` (src/inference.py lines 58–89) -/

/-- Embedding of `upload_output(local_path, target)`.  Returns the access
handle (or the raised exception), the filesystem after the call, and the
trace of side effects. -/
def upload_output (env : StorageEnv) (fs : FS) (local_path target : String) :
    Except PyError Handle × FS × List Effect :=
  if hasS3Scheme target && env.s3Available then
    let uri_parts := splitSlashOnce (stripS3 target)
    let bucket := uri_parts.headD ""
    let pfx := if 1 < uri_parts.length then uri_parts.getD 1 "" else ""
    let key := if pfx ≠ "" then pfx ++ "/" ++ basenameOf local_path
               else basenameOf local_path
    if decide (local_path ∈ fs.files) then
      match env.uploadResult bucket key with
      | .ok _ =>
        (.ok (.presignedUrl bucket key 3600), fs,
          [.uploadS3 local_path bucket key, .presign bucket key 3600])
      | .error e => (.error e, fs, [.uploadS3 local_path bucket key])
    else
      (.error (.fileNotFound ("No such file: " ++ local_path)), fs,
        [.uploadS3 local_path bucket key])
  else
    let fs1 : FS := { fs with dirs := target :: fs.dirs }
    let out_path := pathJoin target (basenameOf local_path)
    if decide (local_path ∈ fs1.files) then
      (.ok (.localPath out_path),
        { fs1 with files := out_path :: fs1.files.erase local_path },
        [.mkdirs target, .moved local_path out_path])
    else
      (.error (.fileNotFound ("No such file: " ++ local_path)), fs1,
        [.mkdirs target])

/-! ### `submit_workflow` (src/inference.py lines 91–111) -/

/-- The parsed response of `POST /prompt`: HTTP status and the
`prompt_id` field of the JSON body (`none` when absent). -/
structure HttpResp where
  status : Nat
  prompt_id : Option String
  deriving DecidableEq

/-- Embedding of `submit_workflow`, parameterised by the transport
outcome of the POST (`.error e` when the request itself raised).
`raise_for_status` raises for statuses in `[400, 600)`; a missing or
empty (falsy) `prompt_id` raises `ValueError`. -/
def submit_workflow (resp : Except PyError HttpResp) : Except PyError String :=
  match resp with
  | .error e => .error e
  | .ok r =>
    if 400 ≤ r.status ∧ r.status < 600 then
      .error (.httpError ("HTTP error for url: status " ++ toString r.status))
    else
      match r.prompt_id with
      | none => .error (.valueError "No prompt_id in ComfyUI response")
      | some pid =>
        if pid = "" then .error (.valueError "No prompt_id in ComfyUI response")
        else .ok pid

/-! ### `wait_for_completion` (src/inference.py lines 113–133) -/

/-- The outputs section of one history entry: for each node identifier,
the items listed under `images`, `videos` and `audio`; every item may
carry a `filename`. -/
structure OutputItem where
  filename : Option String
  deriving DecidableEq

structure NodeOut where
  images : List OutputItem
  videos : List OutputItem
  audio : List OutputItem
  deriving DecidableEq

/-- `data[prompt_id]` once `"outputs" in data[prompt_id]` holds. -/
structure HistoryEntry where
  outputs : List (String × NodeOut)
  deriving DecidableEq

/-- Outcome of the status query of one loop iteration. -/
inductive Tick where
  /-- the GET raised, `raise_for_status` raised, or `.json()` failed. -/
  | queryError (msg : String)
  /-- a well-formed response without `prompt_id`/`outputs` for this id. -/
  | pending
  /-- `prompt_id in data and "outputs" in data[prompt_id]`. -/
  | completed (entry : HistoryEntry)
  deriving DecidableEq

/-- Whether a tick satisfies the loop's success condition. -/
def Tick.isCompleted : Tick → Bool
  | .completed _ => true
  | _ => false

/-- Terminal outcome of the polling loop, with the idealised elapsed time
(in the same unit as `max_wait`) at which it occurred. -/
inductive WaitResult where
  | completed (entry : HistoryEntry) (elapsed : Nat)
  | timedOut (elapsed : Nat)
  deriving DecidableEq

/-- The `while time.time() - start_time < max_wait` loop of
`wait_for_completion`: at tick `k` the elapsed time is
`k * interval`; a completed tick returns its entry, any other tick
(a pending response or a caught query error) sleeps `interval` and
continues.  `fuel` bounds the recursion; `wait_for_completion` passes
`max_wait`, which lemma `pollLoop_fuel_irrelevant`-style reasoning below
shows is never exhausted while the loop guard still holds (for a
positive `interval`). -/
def pollLoop (ticks : Nat → Tick) (interval max_wait : Nat) :
    Nat → Nat → WaitResult
  | 0, k =>
    if k * interval < max_wait then
      match ticks k with
      | .completed entry => .completed entry (k * interval)
      | _ => .timedOut (k * interval)
    else .timedOut (k * interval)
  | fuel + 1, k =>
    if k * interval < max_wait then
      match ticks k with
      | .completed entry => .completed entry (k * interval)
      | _ => pollLoop ticks interval max_wait fuel (k + 1)
    else .timedOut (k * interval)

/-- Embedding of `wait_for_completion(prompt_id, poll_interval, max_wait)`.
The defaults in the source are `poll_interval = 2.0`, `max_wait = 300`. -/
def wait_for_completion (ticks : Nat → Tick) (interval : Nat := 2)
    (max_wait : Nat := 300) : WaitResult :=
  pollLoop ticks interval max_wait max_wait 0

/-! ### The `/invocations` handler `predict` (src/inference.py lines 155–246) -/

/-- A workflow document: node identifier to the node's `inputs`
sub-mapping (the only part the handler reads or writes). -/
def Workflow := List (String × List (String × String))
deriving instance DecidableEq for Workflow

/-- The input-patching loop of `predict`: in every node's `inputs`, the
parameters named `audio`, `text_file` and `image` (when present) are
overwritten with the resolved local paths; everything else is untouched. -/
def patchWorkflow (wf : Workflow) (audio_path transcript_path image_path : String) :
    Workflow :=
  wf.map (fun node =>
    (node.fst, node.snd.map (fun kv =>
      if kv.fst = "audio" then (kv.fst, audio_path)
      else if kv.fst = "text_file" then (kv.fst, transcript_path)
      else if kv.fst = "image" then (kv.fst, image_path)
      else kv)))

/-- JSON values as they appear in the handler's responses.  A presigned
URL or output path is kept as its structured `Handle`. -/
inductive JVal where
  | s (v : String)
  | n (v : Nat)
  | arr (vs : List JVal)
  | url (h : Handle)

/-- One entry of the response's `outputs` array:
`{"type": ty, "filename": fn, "url": url}`. -/
def artifactJVal (a : String × String × Handle) : JVal :=
  .arr [.s a.fst, .s a.snd.fst, .url a.snd.snd]

/-- The 200 response body of a COMPLETED job. -/
def okBody (job_id prompt_id : String) (arts : List (String × String × Handle))
    (now : Nat) : List (String × JVal) :=
  [("job_id", .s job_id), ("status", .s "COMPLETED"),
   ("prompt_id", .s prompt_id), ("outputs", .arr (arts.map artifactJVal)),
   ("timestamp", .n now)]

/-- The 500 response body built in the handler's `except` block. -/
def failedBody (job_id : String) (e : PyError) (now : Nat) :
    List (String × JVal) :=
  [("job_id", .s job_id), ("status", .s "FAILED"),
   ("error", .s e.message), ("timestamp", .n now)]

/-- The required request fields, in the order the handler checks them. -/
def REQUIRED_FIELDS : List String :=
  ["audio_s3", "transcript_s3", "image_s3", "output_s3_bucket"]

/-- First-match lookup in a parsed JSON object (Python `data.get`). -/
def getField (k : String) : List (String × String) → Option String
  | [] => none
  | kv :: rest => if kv.fst = k then some kv.snd else getField k rest

/-- The first required field absent from the request, in check order
(the handler returns 400 for exactly this field). -/
def firstMissing (data : List (String × String)) : Option String :=
  REQUIRED_FIELDS.find? (fun f => (getField f data).isNone)

/-- The canonical workflow template path. -/
def CANONICAL_WORKFLOW : String := "/app/ComfyUI/workflows/vibe_infinite.json"

/-- The workflow template directory. -/
def WORKFLOWS_DIR : String := "/app/ComfyUI/workflows"

/-- The directory the engine renders outputs into. -/
def OUTPUT_DIR : String := "/app/ComfyUI/output"

/-- Outcome of the template-selection step (lines 179–187). -/
inductive WfSel where
  /-- a template path was chosen. -/
  | chosen (path : String)
  /-- `return jsonify({"error": "No workflow files found"}), 500`. -/
  | noFiles
  /-- `os.listdir` raised (workflows directory absent). -/
  | exc (e : PyError)

/-- Template selection: use the canonical template when it exists;
otherwise take the FIRST `.json` entry of `os.listdir`'s enumeration
(`listing` is that enumeration, in OS order — the source applies no
sort) and record a warning; with no `.json` entry at all the job fails. -/
def selectWorkflowPath (fs : FS) (listing : Except PyError (List String)) :
    WfSel × List Effect :=
  if fsExists fs CANONICAL_WORKFLOW then (.chosen CANONICAL_WORKFLOW, [])
  else
    match listing with
    | .error e => (.exc e, [.listDir WORKFLOWS_DIR])
    | .ok entries =>
      match entries.filter endsWithJson with
      | [] => (.noFiles, [.listDir WORKFLOWS_DIR])
      | f :: _ =>
        let p := pathJoin WORKFLOWS_DIR f
        (.chosen p,
          [.listDir WORKFLOWS_DIR, .warned ("Using fallback workflow: " ++ p)])

/-- The environment one `/invocations` call runs in. -/
structure PredictEnv where
  storage : StorageEnv
  /-- the initial filesystem. -/
  fs : FS
  /-- `str(uuid.uuid4())`, used when the request has no `job_id`. -/
  freshId : String
  /-- `os.listdir(WORKFLOWS_DIR)` in OS enumeration order, or the raised
  error when the directory is absent. -/
  workflowsListing : Except PyError (List String)
  /-- `open(path)` + `json.load` for a template path. -/
  loadWorkflow : String → Except PyError Workflow
  /-- transport outcome of `POST /prompt`. -/
  submitResp : Except PyError HttpResp
  /-- outcome of the status query at each poll tick. -/
  ticks : Nat → Tick
  /-- `time.time()` when the response is assembled. -/
  now : Nat

/-- The item list the output-processing loop of `predict` walks, in
program order: per node, `images` then `videos` then `audio`, each item
paired with its semantic type string. -/
def collectItems (nodes : List (String × NodeOut)) : List (String × OutputItem) :=
  nodes.flatMap (fun node =>
    (node.snd.images.map (fun it => ("images", it))) ++
    (node.snd.videos.map (fun it => ("videos", it))) ++
    (node.snd.audio.map (fun it => ("audio", it))))

/-- The output-processing loop (lines 210–226): items without a filename
are skipped, items whose rendered file is absent from `OUTPUT_DIR` are
silently skipped, the rest are published via `upload_output`; a raised
upload error aborts the job. -/
def processItems (env : StorageEnv) (fs : FS) (target : String) :
    List (String × OutputItem) →
    Except PyError (List (String × String × Handle)) × FS × List Effect
  | [] => (.ok [], fs, [])
  | item :: rest =>
    match item.snd.filename with
    | none => processItems env fs target rest
    | some fn =>
      let local_path := pathJoin OUTPUT_DIR fn
      if fsExists fs local_path then
        match upload_output env fs local_path target with
        | (.error e, fs1, eff) => (.error e, fs1, eff)
        | (.ok h, fs1, eff) =>
          match processItems env fs1 target rest with
          | (.ok arts, fs2, eff') =>
            (.ok ((item.fst, fn, h) :: arts), fs2, eff ++ eff')
          | (.error e, fs2, eff') => (.error e, fs2, eff ++ eff')
      else processItems env fs target rest

/-- Outcome of the body of `predict`'s `try` block, after validation. -/
inductive PredictExit where
  /-- reached the final `jsonify(... COMPLETED ...)`. -/
  | ok (prompt_id : String) (arts : List (String × String × Handle))
  /-- `return jsonify({"error": "No workflow files found"}), 500`. -/
  | noWorkflowFiles
  /-- an exception, caught by the handler's `except` block. -/
  | exc (e : PyError)

/-- The body of `predict`'s `try` block after field validation (lines
174–227): resolve the three inputs, select and load the template, patch
it, submit, poll, publish the outputs. -/
def predictCore (env : PredictEnv) (data : List (String × String)) :
    PredictExit × List Effect :=
  match resolve_input_path env.storage env.fs ((getField "audio_s3" data).getD "") with
  | (.error e, _, ef1) => (.exc e, ef1)
  | (.ok audio_path, fs1, ef1) =>
  match resolve_input_path env.storage fs1 ((getField "transcript_s3" data).getD "") with
  | (.error e, _, ef2) => (.exc e, ef1 ++ ef2)
  | (.ok transcript_path, fs2, ef2) =>
  match resolve_input_path env.storage fs2 ((getField "image_s3" data).getD "") with
  | (.error e, _, ef3) => (.exc e, ef1 ++ ef2 ++ ef3)
  | (.ok image_path, fs3, ef3) =>
  match selectWorkflowPath fs3 env.workflowsListing with
  | (.exc e, ef4) => (.exc e, ef1 ++ ef2 ++ ef3 ++ ef4)
  | (.noFiles, ef4) => (.noWorkflowFiles, ef1 ++ ef2 ++ ef3 ++ ef4)
  | (.chosen workflow_path, ef4) =>
  let ef5 := ef4 ++ [.openFile workflow_path]
  match env.loadWorkflow workflow_path with
  | .error e => (.exc e, ef1 ++ ef2 ++ ef3 ++ ef5)
  | .ok workflow =>
  let _patched := patchWorkflow workflow audio_path transcript_path image_path
  let ef6 := ef5 ++ [.submitted]
  match submit_workflow env.submitResp with
  | .error e => (.exc e, ef1 ++ ef2 ++ ef3 ++ ef6)
  | .ok prompt_id =>
  let ef7 := ef6 ++ [.polled prompt_id]
  match wait_for_completion env.ticks with
  | .timedOut _ =>
    (.exc (.timeoutError ("Workflow " ++ prompt_id ++
        " did not complete within 300 seconds")),
      ef1 ++ ef2 ++ ef3 ++ ef7)
  | .completed entry _ =>
  match processItems env.storage fs3 ((getField "output_s3_bucket" data).getD "")
      (collectItems entry.outputs) with
  | (.error e, _, ef8) => (.exc e, ef1 ++ ef2 ++ ef3 ++ ef7 ++ ef8)
  | (.ok arts, _, ef8) => (.ok prompt_id arts, ef1 ++ ef2 ++ ef3 ++ ef7 ++ ef8)

/-- Embedding of the `/invocations` handler `predict`.  The request is
`none` when no JSON body could be parsed; an empty object is falsy in
Python, so it takes the same `"No JSON data provided"` exit.  Returns
the HTTP status, the JSON response body, and the effect trace. -/
def predict (env : PredictEnv) (req : Option (List (String × String))) :
    Nat × List (String × JVal) × List Effect :=
  match req with
  | none => (400, [("error", .s "No JSON data provided")], [])
  | some data =>
    if data.isEmpty then (400, [("error", .s "No JSON data provided")], [])
    else
      let job_id := (getField "job_id" data).getD env.freshId
      match firstMissing data with
      | some f =>
        (400, [("error", .s ("Missing required field: " ++ f))], [])
      | none =>
        match predictCore env data with
        | (.ok prompt_id arts, effs) =>
          (200, okBody job_id prompt_id arts env.now, effs)
        | (.noWorkflowFiles, effs) =>
          (500, [("error", .s "No workflow files found")], effs)
        | (.exc e, effs) => (500, failedBody job_id e env.now, effs)

/-! ## String-parsing lemmas -/

theorem hasS3Scheme_append (x : String) : hasS3Scheme ("s3://" ++ x) = true := rfl

theorem stripS3_append (x : String) : stripS3 ("s3://" ++ x) = stripS3 x := rfl

theorem breakSlash_of_no_slash (l : List Char) (h : '/' ∉ l) :
    breakSlash l = none := by
  induction l with
  | nil => rfl
  | cons c rest ih =>
    have hc : c ≠ '/' := fun hc => h (hc ▸ List.mem_cons_self c rest)
    have hr : '/' ∉ rest := fun hr => h (List.mem_cons_of_mem c hr)
    simp [breakSlash, hc, ih hr]

theorem breakSlash_first (a b : List Char) (h : '/' ∉ a) :
    breakSlash (a ++ '/' :: b) = some (a, b) := by
  induction a with
  | nil => simp [breakSlash]
  | cons c rest ih =>
    have hc : c ≠ '/' := fun hc => h (hc ▸ List.mem_cons_self c rest)
    have hr : '/' ∉ rest := fun hr => h (List.mem_cons_of_mem c hr)
    simp [breakSlash, hc, ih hr]

theorem toList_append (a b : String) : (a ++ b).toList = a.toList ++ b.toList := rfl

theorem splitSlashOnce_of_no_slash (s : String) (h : '/' ∉ s.toList) :
    splitSlashOnce s = [s] := by
  unfold splitSlashOnce
  rw [breakSlash_of_no_slash s.toList h]

theorem splitSlashOnce_split (a b : String) (h : '/' ∉ a.toList) :
    splitSlashOnce (a ++ "/" ++ b) = [a, b] := by
  have hl : (a ++ "/" ++ b).toList = a.toList ++ '/' :: b.toList := by
    simp [toList_append]
  unfold splitSlashOnce
  rw [hl, breakSlash_first a.toList b.toList h]
  rfl

/-! ## Polling-loop lemmas -/

/-- One-step unfolding of `pollLoop`: when the tick at `k` is not a
completed one, exhausted fuel and remaining fuel continue identically
except for the recursive call. -/
theorem pollLoop_eq (ticks : Nat → Tick) (interval max_wait fuel k : Nat) :
    pollLoop ticks interval max_wait fuel k =
      if k * interval < max_wait then
        match ticks k with
        | .completed entry => .completed entry (k * interval)
        | _ =>
          match fuel with
          | 0 => .timedOut (k * interval)
          | fuel' + 1 => pollLoop ticks interval max_wait fuel' (k + 1)
      else .timedOut (k * interval) := by
  cases fuel <;> rfl

/-- While no tick ever satisfies the completion condition, the loop runs
until the guard fails and times out, at an elapsed time in
`[max_wait, max_wait + interval)`; the fuel `pollLoop` is given is never
the reason it stops as long as `max_wait ≤ (fuel + k) * interval`. -/
theorem pollLoop_timedOut (ticks : Nat → Tick) (interval max_wait : Nat)
    (hint : 1 ≤ interval) (hnone : ∀ i, (ticks i).isCompleted = false) :
    ∀ fuel k, max_wait ≤ (fuel + k) * interval →
      (k = 0 ∨ (k - 1) * interval < max_wait) →
      ∃ e, pollLoop ticks interval max_wait fuel k = .timedOut e ∧
        max_wait ≤ e ∧ e < max_wait + interval := by
  intro fuel
  induction fuel with
  | zero =>
    intro k hade hinv
    have hg : ¬ k * interval < max_wait := by
      simpa using Nat.not_lt_of_le hade
    refine ⟨k * interval, ?_, Nat.le_of_not_lt hg, ?_⟩
    · rw [pollLoop_eq, if_neg hg]
    · rcases hinv with h0 | hlt
      · subst h0
        simpa using Nat.lt_of_lt_of_le (Nat.lt_of_lt_of_le Nat.zero_lt_one hint)
          (Nat.le_add_left interval max_wait)
      · rcases k with _ | k'
        · simpa using Nat.lt_of_lt_of_le (Nat.lt_of_lt_of_le Nat.zero_lt_one hint)
            (Nat.le_add_left interval max_wait)
        · have : (k' + 1) * interval = k' * interval + interval := Nat.succ_mul k' interval
          rw [this]
          exact Nat.add_lt_add_right (by simpa using hlt) interval
  | succ fuel ih =>
    intro k hade hinv
    by_cases hg : k * interval < max_wait
    · have ht := hnone k
      rw [pollLoop_eq, if_pos hg]
      cases htk : ticks k with
      | completed entry => rw [htk] at ht; simp [Tick.isCompleted] at ht
      | queryError msg =>
        simp only
        exact ih (k + 1) (by rw [show fuel + (k + 1) = fuel + 1 + k by omega]; exact hade)
          (Or.inr (by simpa using hg))
      | pending =>
        simp only
        exact ih (k + 1) (by rw [show fuel + (k + 1) = fuel + 1 + k by omega]; exact hade)
          (Or.inr (by simpa using hg))
    · refine ⟨k * interval, ?_, Nat.le_of_not_lt hg, ?_⟩
      · unfold pollLoop
        rw [if_neg hg]
      · rcases hinv with h0 | hlt
        · subst h0
          simpa using Nat.lt_of_lt_of_le (Nat.lt_of_lt_of_le Nat.zero_lt_one hint)
            (Nat.le_add_left interval max_wait)
        · rcases k with _ | k'
          · simpa using Nat.lt_of_lt_of_le (Nat.lt_of_lt_of_le Nat.zero_lt_one hint)
              (Nat.le_add_left interval max_wait)
          · have : (k' + 1) * interval = k' * interval + interval := Nat.succ_mul k' interval
            rw [this]
            exact Nat.add_lt_add_right (by simpa using hlt) interval

/-- Once some tick `m` inside the wait budget satisfies the completion
condition and no earlier tick (from `k` on) does, the loop reaches `m`
and returns its entry at elapsed time `m * interval`. -/
theorem pollLoop_completed (ticks : Nat → Tick) (interval max_wait : Nat)
    (m : Nat) (entry : HistoryEntry) (hm : ticks m = .completed entry)
    (hbud : m * interval < max_wait) :
    ∀ fuel k, (∀ i, k ≤ i → i < m → (ticks i).isCompleted = false) →
      k ≤ m → m - k ≤ fuel →
      pollLoop ticks interval max_wait fuel k = .completed entry (m * interval) := by
  intro fuel
  induction fuel with
  | zero =>
    intro k hnc hkm hfuel
    have hk : k = m := by omega
    subst hk
    rw [pollLoop_eq, if_pos hbud, hm]
  | succ fuel ih =>
    intro k hnc hkm hfuel
    by_cases hkm' : k = m
    · subst hkm'
      rw [pollLoop_eq, if_pos hbud, hm]
    · have hklt : k < m := Nat.lt_of_le_of_ne hkm hkm'
      have hg : k * interval < max_wait :=
        Nat.lt_of_le_of_lt (Nat.mul_le_mul_right interval (Nat.le_of_lt hklt)) hbud
      have ht := hnc k (Nat.le_refl k) hklt
      rw [pollLoop_eq, if_pos hg]
      cases htk : ticks k with
      | completed e => rw [htk] at ht; simp [Tick.isCompleted] at ht
      | queryError msg =>
        simp only
        exact ih (k + 1) (fun i h1 h2 => hnc i (by omega) h2) hklt (by omega)
      | pending =>
        simp only
        exact ih (k + 1) (fun i h1 h2 => hnc i (by omega) h2) hklt (by omega)

/-! ## Claim C2 -/

/-- C2: if no status query ever returns a response containing an outputs
section for the handle, `wait_for_completion` ends in the timeout error
(`WaitResult` has exactly the two terminal outcomes `completed` and
`timedOut`), and the timeout happens at an elapsed time of at least
`max_wait` — and less than one `poll_interval` past it, i.e.
approximately `max_wait`, never earlier. -/
theorem wait_for_completion_times_out (ticks : Nat → Tick)
    (interval max_wait : Nat) (hint : 1 ≤ interval)
    (hnone : ∀ i, (ticks i).isCompleted = false) :
    ∃ e, wait_for_completion ticks interval max_wait = .timedOut e ∧
      max_wait ≤ e ∧ e < max_wait + interval := by
  apply pollLoop_timedOut ticks interval max_wait hint hnone max_wait 0
  · have h1 : max_wait * 1 ≤ max_wait * interval := Nat.mul_le_mul_left max_wait hint
    simpa using h1
  · exact Or.inl rfl

/-- Witness for C2: with a status query that always reports a pending
job, the default poller configuration (`poll_interval = 2`,
`max_wait = 300`) times out at an elapsed time in `[300, 302)`. -/
theorem wait_for_completion_times_out_witness :
    ∃ e, wait_for_completion (fun _ => Tick.pending) 2 300 = .timedOut e ∧
      300 ≤ e ∧ e < 302 :=
  wait_for_completion_times_out (fun _ => Tick.pending) 2 300 (by decide)
    (fun _ => rfl)

/-! ## Claim C3 -/

/-- C3: a transient error in a single status query does not abort
polling: if tick `j` fails with a query error, no tick before `m` is a
completed one, and tick `m` (still within the wait budget) returns a
completed-state response with outputs, then `wait_for_completion`
returns those outputs rather than propagating the transient error. -/
theorem wait_for_completion_transient_tolerant (ticks : Nat → Tick)
    (interval max_wait j m : Nat) (entry : HistoryEntry) (msg : String)
    (hint : 1 ≤ interval)
    (hj : ticks j = .queryError msg) (hjm : j < m)
    (hm : ticks m = .completed entry)
    (hbefore : ∀ i, i < m → (ticks i).isCompleted = false)
    (hbud : m * interval < max_wait) :
    wait_for_completion ticks interval max_wait = .completed entry (m * interval) := by
  apply pollLoop_completed ticks interval max_wait m entry hm hbud max_wait 0
    (fun i _ h2 => hbefore i h2) (Nat.zero_le m)
  have h1 : m * 1 ≤ m * interval := Nat.mul_le_mul_left m hint
  omega

/-- Witness for C3: the first poll tick raises a connection error, the
second returns a completed entry; the poller returns that entry at
elapsed time 2. -/
theorem wait_for_completion_transient_tolerant_witness :
    wait_for_completion
      (fun i => if i = 0 then Tick.queryError "connection reset"
                else if i = 1 then Tick.completed ⟨[]⟩ else Tick.pending)
      2 300 = .completed ⟨[]⟩ 2 :=
  wait_for_completion_transient_tolerant
    (fun i => if i = 0 then Tick.queryError "connection reset"
              else if i = 1 then Tick.completed ⟨[]⟩ else Tick.pending)
    2 300 0 1 ⟨[]⟩ "connection reset" (by decide) rfl (by decide) rfl
    (by decide) (by decide)

/-! ## Claim C9 -/

/-- C9: `submit_workflow` fails on a transport-level error, fails with an
`HTTPError` on a non-success status, fails with a `ValueError` — a
protocol-violation error of a kind distinct from the transport-side
errors — on a success response whose `prompt_id` is absent or empty
(falsy), and returns the identifier on a success response that carries
one. -/
theorem submit_workflow_contract :
    (∀ e, submit_workflow (.error e) = .error e) ∧
    (∀ r : HttpResp, 400 ≤ r.status → r.status < 600 →
      submit_workflow (.ok r) =
        .error (.httpError ("HTTP error for url: status " ++ toString r.status))) ∧
    (∀ r : HttpResp, ¬ (400 ≤ r.status ∧ r.status < 600) →
      (r.prompt_id = none ∨ r.prompt_id = some "") →
      submit_workflow (.ok r) =
        .error (.valueError "No prompt_id in ComfyUI response")) ∧
    (∀ (r : HttpResp) (pid : String), ¬ (400 ≤ r.status ∧ r.status < 600) →
      r.prompt_id = some pid → pid ≠ "" → submit_workflow (.ok r) = .ok pid) ∧
    (∀ m m', PyError.valueError m ≠ PyError.httpError m') := by
  refine ⟨fun e => rfl, ?_, ?_, ?_, fun m m' h => PyError.noConfusion h⟩
  · intro r h1 h2
    simp [submit_workflow, h1, h2]
  · intro r hno hnp
    rcases hnp with h | h <;> simp [submit_workflow, hno, h]
  · intro r pid hno hp hne
    simp [submit_workflow, hno, hp, hne]

/-- Witness for C9: a 500 response is a transport-class failure, a 200
response without `prompt_id` is the protocol-violation `ValueError`, and
a 200 response carrying `prompt_id = "p1"` returns `"p1"`. -/
theorem submit_workflow_contract_witness :
    submit_workflow (.ok ⟨500, some "p1"⟩) =
      .error (.httpError ("HTTP error for url: status " ++ toString 500)) ∧
    submit_workflow (.ok ⟨200, none⟩) =
      .error (.valueError "No prompt_id in ComfyUI response") ∧
    submit_workflow (.ok ⟨200, some "p1"⟩) = .ok "p1" :=
  ⟨submit_workflow_contract.2.1 ⟨500, some "p1"⟩ (by decide) (by decide),
   submit_workflow_contract.2.2.1 ⟨200, none⟩ (by decide) (Or.inl rfl),
   submit_workflow_contract.2.2.2.1 ⟨200, some "p1"⟩ "p1" (by decide) rfl
     (by decide)⟩

/-! ## Claim C5 -/

/-- A storage environment with an initialised S3 client whose transfers
all succeed. -/
def s3OkEnv : StorageEnv :=
  { s3Available := true
    downloadResult := fun _ _ => .ok ()
    uploadResult := fun _ _ => .ok () }

/-- The empty filesystem. -/
def emptyFS : FS := { files := [], dirs := [] }

/-- Counterexample to C5 as stated: a reference with MORE than one path
segment after the bucket (`s3://bkt/nested/dir/c.txt`) is NOT rejected
as an input-format error — `split("/", 1)` keeps the whole remainder
`nested/dir/c.txt` as the key, the object is fetched into the staging
directory under the key's basename, and the local path is returned. -/
theorem resolve_input_path_multi_segment_accepted :
    resolve_input_path s3OkEnv emptyFS "s3://bkt/nested/dir/c.txt" =
      (.ok "/app/inputs/c.txt",
       { files := ["/app/inputs/c.txt"], dirs := ["/app/inputs"] },
       [.mkdirs "/app/inputs",
        .download "bkt" "nested/dir/c.txt" "/app/inputs/c.txt"]) := rfl

/-- C5 as amended: with the S3 client available, a remote reference
fails with a `ValueError` input-format error exactly when it has NO path
segment after the bucket (no slash after the scheme); any reference with
at least one slash decomposes into the bucket and the ENTIRE remainder
as the key (which may itself contain slashes), is fetched into the
staging directory under the basename of that key, and the local path is
returned. -/
theorem resolve_input_path_decomposition :
    (∀ (env : StorageEnv) (fs : FS) (local_dir b : String),
      env.s3Available = true → '/' ∉ b.toList → stripS3 b = b →
      resolve_input_path env fs ("s3://" ++ b) local_dir =
        (.error (.valueError ("Invalid S3 URI format: " ++ ("s3://" ++ b))),
         fs, [])) ∧
    (∀ (env : StorageEnv) (fs : FS) (local_dir bucket keyRest : String),
      env.s3Available = true → '/' ∉ bucket.toList →
      stripS3 (bucket ++ "/" ++ keyRest) = bucket ++ "/" ++ keyRest →
      env.downloadResult bucket keyRest = .ok () →
      resolve_input_path env fs ("s3://" ++ (bucket ++ "/" ++ keyRest)) local_dir =
        (.ok (pathJoin local_dir (basenameOf keyRest)),
         { files := pathJoin local_dir (basenameOf keyRest) :: fs.files,
           dirs := local_dir :: fs.dirs },
         [.mkdirs local_dir,
          .download bucket keyRest (pathJoin local_dir (basenameOf keyRest))])) := by
  constructor
  · intro env fs local_dir b hAv hb hclean
    unfold resolve_input_path
    rw [hasS3Scheme_append, hAv, stripS3_append, hclean,
      splitSlashOnce_of_no_slash b hb]
    rfl
  · intro env fs local_dir bucket keyRest hAv hb hclean hdl
    unfold resolve_input_path
    rw [hasS3Scheme_append, hAv, stripS3_append, hclean,
      splitSlashOnce_split bucket keyRest hb]
    show (match env.downloadResult bucket keyRest with
      | Except.ok _ => _
      | Except.error e => _) = _
    rw [hdl]

/-- Witness for the amended C5: `s3://bkt` (no key) is the input-format
error; `s3://bkt/k.txt` is fetched to `/app/inputs/k.txt`. -/
theorem resolve_input_path_decomposition_witness :
    resolve_input_path s3OkEnv emptyFS "s3://bkt" INPUTS_DIR =
      (.error (.valueError "Invalid S3 URI format: s3://bkt"), emptyFS, []) ∧
    resolve_input_path s3OkEnv emptyFS "s3://bkt/k.txt" INPUTS_DIR =
      (.ok "/app/inputs/k.txt",
       { files := ["/app/inputs/k.txt"], dirs := ["/app/inputs"] },
       [.mkdirs "/app/inputs", .download "bkt" "k.txt" "/app/inputs/k.txt"]) :=
  ⟨resolve_input_path_decomposition.1 s3OkEnv emptyFS INPUTS_DIR "bkt" rfl

     (by decide) rfl,
   resolve_input_path_decomposition.2 s3OkEnv emptyFS INPUTS_DIR "bkt" "k.txt" rfl
     (by decide) rfl rfl⟩

/-! ## Local-branch helper lemmas (shared) -/

/-- When the S3 guard of `resolve_input_path` is not taken, the uri is
treated as a local path: returned unchanged when it exists, a
`FileNotFoundError` otherwise; the filesystem is untouched. -/
theorem resolve_input_path_local_case (env : StorageEnv) (fs : FS)
    (uri local_dir : String)
    (hcond : (hasS3Scheme uri && env.s3Available) = false) :
    resolve_input_path env fs uri local_dir =
      if fsExists fs uri then (.ok uri, fs, [])
      else (.error (.fileNotFound ("Input file not found: " ++ uri)), fs, []) := by
  unfold resolve_input_path
  rw [hcond]
  simp

/-- When the S3 guard of `upload_output` is not taken, the target is
treated as a local directory: it is created, and the file is renamed
into it. -/
theorem upload_output_local_move (env : StorageEnv) (fs : FS)
    (lp target : String)
    (hcond : (hasS3Scheme target && env.s3Available) = false)
    (hmem : lp ∈ fs.files) :
    upload_output env fs lp target =
      (.ok (.localPath (pathJoin target (basenameOf lp))),
       { files := pathJoin target (basenameOf lp) :: fs.files.erase lp,
         dirs := target :: fs.dirs },
       [.mkdirs target, .moved lp (pathJoin target (basenameOf lp))]) := by
  unfold upload_output
  rw [hcond]
  simp [hmem]

/-! ## Claim C7 -/

/-- C7: publishing to a remote destination computes the storage key as
`prefix/basename(local_path)` — just `basename(local_path)` when the
destination carries no prefix (empty prefix after the bucket's slash, or
a bare-bucket target) — uploads the file under that key, and returns a
presigned URL generated with a validity of 3600 time units (one hour). -/
theorem upload_output_presigned_one_hour :
    (∀ (env : StorageEnv) (fs : FS) (local_path bucket pfxVal : String),
      env.s3Available = true → '/' ∉ bucket.toList →
      stripS3 (bucket ++ "/" ++ pfxVal) = bucket ++ "/" ++ pfxVal →
      local_path ∈ fs.files →
      env.uploadResult bucket
        (if pfxVal = "" then basenameOf local_path
         else pfxVal ++ "/" ++ basenameOf local_path) = .ok () →
      upload_output env fs local_path ("s3://" ++ (bucket ++ "/" ++ pfxVal)) =
        (.ok (.presignedUrl bucket
            (if pfxVal = "" then basenameOf local_path
             else pfxVal ++ "/" ++ basenameOf local_path) 3600), fs,
         [.uploadS3 local_path bucket
            (if pfxVal = "" then basenameOf local_path
             else pfxVal ++ "/" ++ basenameOf local_path),
          .presign bucket
            (if pfxVal = "" then basenameOf local_path
             else pfxVal ++ "/" ++ basenameOf local_path) 3600])) ∧
    (∀ (env : StorageEnv) (fs : FS) (local_path bucket : String),
      env.s3Available = true → '/' ∉ bucket.toList → stripS3 bucket = bucket →
      local_path ∈ fs.files →
      env.uploadResult bucket (basenameOf local_path) = .ok () →
      upload_output env fs local_path ("s3://" ++ bucket) =
        (.ok (.presignedUrl bucket (basenameOf local_path) 3600), fs,
         [.uploadS3 local_path bucket (basenameOf local_path),
          .presign bucket (basenameOf local_path) 3600])) := by
  constructor
  · intro env fs local_path bucket pfxVal hAv hb hclean hmem hup
    unfold upload_output
    rw [hasS3Scheme_append, hAv, stripS3_append, hclean,
      splitSlashOnce_split bucket pfxVal hb]
    by_cases hp : pfxVal = ""
    · subst hp
      simp at hup
      simp [hmem, hup]
    · simp only [if_neg hp] at hup
      simp [hmem, hup, hp]
  · intro env fs local_path bucket hAv hb hclean hmem hup
    unfold upload_output
    rw [hasS3Scheme_append, hAv, stripS3_append, hclean,
      splitSlashOnce_of_no_slash bucket hb]
    simp [hmem, hup]

/-- Witness for C7: uploading `/app/ComfyUI/output/result.png` to
`s3://outbkt/renders` stores it under key `renders/result.png` and
returns a URL presigned for 3600 time units; to bare `s3://outbkt` the
key is just `result.png`. -/
theorem upload_output_presigned_one_hour_witness :
    upload_output s3OkEnv
      { files := ["/app/ComfyUI/output/result.png"], dirs := [] }
      "/app/ComfyUI/output/result.png" "s3://outbkt/renders" =
      (.ok (.presignedUrl "outbkt" "renders/result.png" 3600),
       { files := ["/app/ComfyUI/output/result.png"], dirs := [] },
       [.uploadS3 "/app/ComfyUI/output/result.png" "outbkt" "renders/result.png",
        .presign "outbkt" "renders/result.png" 3600]) ∧
    upload_output s3OkEnv
      { files := ["/app/ComfyUI/output/result.png"], dirs := [] }
      "/app/ComfyUI/output/result.png" "s3://outbkt" =
      (.ok (.presignedUrl "outbkt" "result.png" 3600),
       { files := ["/app/ComfyUI/output/result.png"], dirs := [] },
       [.uploadS3 "/app/ComfyUI/output/result.png" "outbkt" "result.png",
        .presign "outbkt" "result.png" 3600]) :=
  ⟨upload_output_presigned_one_hour.1 s3OkEnv
     { files := ["/app/ComfyUI/output/result.png"], dirs := [] }
     "/app/ComfyUI/output/result.png" "outbkt" "renders" rfl (by decide) rfl
     (by decide) rfl,
   upload_output_presigned_one_hour.2 s3OkEnv
     { files := ["/app/ComfyUI/output/result.png"], dirs := [] }
     "/app/ComfyUI/output/result.png" "outbkt" rfl (by decide) rfl
     (by decide) rfl⟩

/-! ## Claim C8 -/

/-- C8: on a remote (S3) destination the publisher leaves the filesystem
— and in particular the source file — untouched in every outcome of the
upload, whereas on a local-directory destination it creates the
directory and MOVES the file: the returned path (the destination joined
with the source's basename) exists afterwards, the source path no longer
does (when the two differ), and the destination directory was created. -/
theorem upload_output_source_frame :
    (∀ (env : StorageEnv) (fs : FS) (lp target : String),
      hasS3Scheme target = true → env.s3Available = true →
      (upload_output env fs lp target).2.1 = fs ∧
      (lp ∈ fs.files → lp ∈ (upload_output env fs lp target).2.1.files)) ∧
    (∀ (env : StorageEnv) (fs : FS) (lp target : String),
      (hasS3Scheme target && env.s3Available) = false →
      lp ∈ fs.files → fs.files.Nodup →
      upload_output env fs lp target =
        (.ok (.localPath (pathJoin target (basenameOf lp))),
         { files := pathJoin target (basenameOf lp) :: fs.files.erase lp,
           dirs := target :: fs.dirs },
         [.mkdirs target, .moved lp (pathJoin target (basenameOf lp))]) ∧
      pathJoin target (basenameOf lp) ∈
        (upload_output env fs lp target).2.1.files ∧
      target ∈ (upload_output env fs lp target).2.1.dirs ∧
      (pathJoin target (basenameOf lp) ≠ lp →
        lp ∉ (upload_output env fs lp target).2.1.files)) := by
  constructor
  · intro env fs lp target hscheme hAv
    have hfs : (upload_output env fs lp target).2.1 = fs := by
      unfold upload_output
      rw [hscheme, hAv]
      by_cases hmem : lp ∈ fs.files
      · simp only [Bool.and_self, if_true, hmem, decide_True]
        split <;> rfl
      · simp [hmem]
    exact ⟨hfs, fun hmem => by rw [hfs]; exact hmem⟩
  · intro env fs lp target hcond hmem hnd
    have heq := upload_output_local_move env fs lp target hcond hmem
    refine ⟨heq, ?_, ?_, ?_⟩
    · rw [heq]
      exact List.mem_cons_self _ _
    · rw [heq]
      exact List.mem_cons_self _ _
    · intro hne
      rw [heq]
      intro hin
      rcases List.mem_cons.mp hin with h | h
      · exact hne h.symm
      · exact hnd.not_mem_erase h

/-- Witness for C8: with `/app/ComfyUI/output/result.png` on disk,
publishing to `s3://outbkt/renders` leaves the file in place, while
publishing to local `/data/results` moves it to
`/data/results/result.png`. -/
theorem upload_output_source_frame_witness :
    (upload_output s3OkEnv
       { files := ["/app/ComfyUI/output/result.png"], dirs := [] }
       "/app/ComfyUI/output/result.png" "s3://outbkt/renders").2.1 =
      { files := ["/app/ComfyUI/output/result.png"], dirs := [] } ∧
    (upload_output s3OkEnv
       { files := ["/app/ComfyUI/output/result.png"], dirs := [] }
       "/app/ComfyUI/output/result.png" "/data/results" =
        (.ok (.localPath "/data/results/result.png"),
         { files := ["/data/results/result.png"], dirs := ["/data/results"] },
         [.mkdirs "/data/results",
          .moved "/app/ComfyUI/output/result.png" "/data/results/result.png"]) ∧
      "/data/results/result.png" ∈
        (upload_output s3OkEnv
          { files := ["/app/ComfyUI/output/result.png"], dirs := [] }
          "/app/ComfyUI/output/result.png" "/data/results").2.1.files ∧
      "/data/results" ∈
        (upload_output s3OkEnv
          { files := ["/app/ComfyUI/output/result.png"], dirs := [] }
          "/app/ComfyUI/output/result.png" "/data/results").2.1.dirs ∧
      ("/data/results/result.png" ≠ "/app/ComfyUI/output/result.png" →
        "/app/ComfyUI/output/result.png" ∉
          (upload_output s3OkEnv
            { files := ["/app/ComfyUI/output/result.png"], dirs := [] }
            "/app/ComfyUI/output/result.png" "/data/results").2.1.files)) :=
  ⟨(upload_output_source_frame.1 s3OkEnv
      { files := ["/app/ComfyUI/output/result.png"], dirs := [] }
      "/app/ComfyUI/output/result.png" "s3://outbkt/renders" rfl rfl).1,
   upload_output_source_frame.2 s3OkEnv
     { files := ["/app/ComfyUI/output/result.png"], dirs := [] }
     "/app/ComfyUI/output/result.png" "/data/results" rfl (by decide)
     (by decide)⟩

/-! ## Claim C10 -/

/-- C10: with the storage client uninitialised (`s3_client is None`), a
reference beginning with `s3://` falls through to the local-path branch
of both functions: `resolve_input_path` fails with `FileNotFoundError`
unless a file or directory literally named by the URI string exists (in
which case the URI string itself is returned), and `upload_output`
treats the `s3://...` string as a local directory to create and move the
file into — neither reports a storage-unavailable error. -/
theorem s3_client_unavailable_fallthrough :
    (∀ (env : StorageEnv) (fs : FS) (uri local_dir : String),
      env.s3Available = false → hasS3Scheme uri = true →
      (fsExists fs uri = false →
        resolve_input_path env fs uri local_dir =
          (.error (.fileNotFound ("Input file not found: " ++ uri)), fs, [])) ∧
      (fsExists fs uri = true →
        resolve_input_path env fs uri local_dir = (.ok uri, fs, []))) ∧
    (∀ (env : StorageEnv) (fs : FS) (lp target : String),
      env.s3Available = false → hasS3Scheme target = true → lp ∈ fs.files →
      upload_output env fs lp target =
        (.ok (.localPath (pathJoin target (basenameOf lp))),
         { files := pathJoin target (basenameOf lp) :: fs.files.erase lp,
           dirs := target :: fs.dirs },
         [.mkdirs target, .moved lp (pathJoin target (basenameOf lp))])) := by
  constructor
  · intro env fs uri local_dir hAv hscheme
    have hcond : (hasS3Scheme uri && env.s3Available) = false := by
      rw [hAv, Bool.and_false]
    have heq := resolve_input_path_local_case env fs uri local_dir hcond
    constructor
    · intro hex
      rw [heq, hex]
      rfl
    · intro hex
      rw [heq, hex]
      rfl
  · intro env fs lp target hAv hscheme hmem
    exact upload_output_local_move env fs lp target
      (by rw [hAv, Bool.and_false]) hmem

/-- Witness for C10: with `s3Available = false`, resolving
`s3://bkt/k.txt` on an empty filesystem raises the not-found error with
the URI string in the message, and publishing to `s3://outbkt/renders`
creates a directory literally named `s3://outbkt/renders` and moves the
file into it. -/
theorem s3_client_unavailable_fallthrough_witness :
    resolve_input_path
      { s3OkEnv with s3Available := false } emptyFS "s3://bkt/k.txt" INPUTS_DIR =
      (.error (.fileNotFound "Input file not found: s3://bkt/k.txt"),
       emptyFS, []) ∧
    upload_output { s3OkEnv with s3Available := false }
      { files := ["/app/ComfyUI/output/result.png"], dirs := [] }
      "/app/ComfyUI/output/result.png" "s3://outbkt/renders" =
      (.ok (.localPath "s3://outbkt/renders/result.png"),
       { files := ["s3://outbkt/renders/result.png"],
         dirs := ["s3://outbkt/renders"] },
       [.mkdirs "s3://outbkt/renders",
        .moved "/app/ComfyUI/output/result.png"
          "s3://outbkt/renders/result.png"]) :=
  ⟨(s3_client_unavailable_fallthrough.1 { s3OkEnv with s3Available := false }
      emptyFS "s3://bkt/k.txt" INPUTS_DIR rfl rfl).1 rfl,
   s3_client_unavailable_fallthrough.2 { s3OkEnv with s3Available := false }
     { files := ["/app/ComfyUI/output/result.png"], dirs := [] }
     "/app/ComfyUI/output/result.png" "s3://outbkt/renders" rfl rfl
     (by decide)⟩

/-! ## Concrete handler environments for the endpoint-level claims -/

/-- A baseline environment: S3 transfers succeed, the workflows
directory is empty, the engine accepts the workflow as `p1` and reports
it completed (with no outputs) on the first poll. -/
def baseEnv : PredictEnv :=
  { storage := s3OkEnv
    fs := emptyFS
    freshId := "11111111-2222-3333-4444-555555555555"
    workflowsListing := .ok []
    loadWorkflow := fun _ => .ok ([] : Workflow)
    submitResp := .ok ⟨200, some "p1"⟩
    ticks := fun _ => .completed ⟨[]⟩
    now := 1700000000 }

/-! ## Claim C1 -/

/-- Counterexample to C1 as stated: the empty JSON object `{}` is an
inference request missing all four required fields, yet — being falsy in
Python — it takes the `"No JSON data provided"` exit, whose message
names none of the required fields (no field name occurs in it as a
substring).  The rejection is still 400-class and still precedes any
side effect. -/
theorem predict_empty_object_names_no_field :
    predict baseEnv (some []) =
      (400, [("error", JVal.s "No JSON data provided")], []) ∧
    REQUIRED_FIELDS.all
      (fun f => !segOccursIn f.toList "No JSON data provided".toList) = true :=
  ⟨rfl, by decide⟩

/-- C1 as amended: for every request that parses to a NON-EMPTY JSON
object and is missing at least one of the four required fields, the
handler returns 400 with a message naming the first missing field in
check order (a field that is indeed required and absent), and the
effect trace is empty — no input resolution, workflow submission,
polling, or storage call happens before the rejection.  (The degenerate
empty object is instead rejected as `"No JSON data provided"`, also
with status 400 and no side effects.) -/
theorem predict_validation_rejects_before_effects (env : PredictEnv)
    (data : List (String × String)) (f : String)
    (hne : data ≠ []) (hmiss : firstMissing data = some f) :
    predict env (some data) =
      (400, [("error", JVal.s ("Missing required field: " ++ f))], []) ∧
    f ∈ REQUIRED_FIELDS ∧ getField f data = none := by
  have hE : data.isEmpty = false := by
    cases data with
    | nil => exact absurd rfl hne
    | cons a l => rfl
  refine ⟨?_, List.mem_of_find?_eq_some hmiss, ?_⟩
  · unfold predict
    simp [hE, hmiss]
  · have hp := List.find?_some hmiss
    simpa using hp

/-- Witness for the amended C1: a request carrying only `audio_s3` is
rejected with status 400 naming `transcript_s3`, with an empty effect
trace. -/
theorem predict_validation_rejects_before_effects_witness :
    predict baseEnv (some [("audio_s3", "s3://b/a.wav")]) =
      (400, [("error", JVal.s ("Missing required field: " ++ "transcript_s3"))],
       []) ∧
    "transcript_s3" ∈ REQUIRED_FIELDS ∧
    getField "transcript_s3" [("audio_s3", "s3://b/a.wav")] = none :=
  predict_validation_rejects_before_effects baseEnv
    [("audio_s3", "s3://b/a.wav")] "transcript_s3" (by decide) rfl

/-! ## Claim C4 -/

/-- The baseline environment with the canonical template absent and the
OS enumerating the workflows directory as `["b.json", "a.json"]` —
a legal `os.listdir` order, since `os.listdir` returns entries in
arbitrary order. -/
def fallbackEnv : PredictEnv :=
  { baseEnv with workflowsListing := .ok ["b.json", "a.json"] }

/-- A complete, valid request. -/
def fullReq : List (String × String) :=
  [("audio_s3", "s3://bkt/a.wav"), ("transcript_s3", "s3://bkt/t.txt"),
   ("image_s3", "s3://bkt/i.png"), ("output_s3_bucket", "s3://outbkt/results")]

/-- Counterexample to C4 as stated: with the canonical template absent
and the directory enumerated as `["b.json", "a.json"]`, the handler
opens `b.json` — the first entry in ENUMERATION order — and not
`a.json`, even though `a.json` is first in name-sorted order
(`"a.json" < "b.json"`); the source applies no sort.  It does warn and
proceed to a 200 response. -/
theorem predict_fallback_not_sorted :
    Effect.openFile "/app/ComfyUI/workflows/b.json" ∈
      (predict fallbackEnv (some fullReq)).2.2 ∧
    Effect.openFile "/app/ComfyUI/workflows/a.json" ∉
      (predict fallbackEnv (some fullReq)).2.2 ∧
    Effect.warned "Using fallback workflow: /app/ComfyUI/workflows/b.json" ∈
      (predict fallbackEnv (some fullReq)).2.2 ∧
    (predict fallbackEnv (some fullReq)).1 = 200 ∧
    "a.json".toList < "b.json".toList := by
  refine ⟨?_, ?_, ?_, ?_, ?_⟩ <;> decide

/-- C4 as amended: when the canonical workflow template is absent, the
handler picks the FIRST `.json` entry of the directory enumeration in
the order the OS returns it (no sorting is applied), records a warning,
and proceeds; only when the enumeration contains no `.json` entry at all
does the job fail with the `"No workflow files found"` 500. -/
theorem selectWorkflowPath_first_listed (fs : FS)
    (listing : Except PyError (List String)) (entries : List String)
    (hcanon : fsExists fs CANONICAL_WORKFLOW = false)
    (hlist : listing = .ok entries) :
    (∀ f rest, entries.filter endsWithJson = f :: rest →
      selectWorkflowPath fs listing =
        (.chosen (pathJoin WORKFLOWS_DIR f),
         [.listDir WORKFLOWS_DIR,
          .warned ("Using fallback workflow: " ++ pathJoin WORKFLOWS_DIR f)])) ∧
    (entries.filter endsWithJson = [] →
      selectWorkflowPath fs listing = (.noFiles, [.listDir WORKFLOWS_DIR])) := by
  subst hlist
  constructor
  · intro f rest hf
    unfold selectWorkflowPath
    simp [hcanon, hf]
  · intro h0
    unfold selectWorkflowPath
    simp [hcanon, h0]

/-- Witness for the amended C4: enumeration `["b.json", "a.json"]`
selects `b.json` with a warning; an enumeration with no `.json` entry
fails. -/
theorem selectWorkflowPath_first_listed_witness :
    selectWorkflowPath emptyFS (.ok ["b.json", "a.json"]) =
      (.chosen (pathJoin WORKFLOWS_DIR "b.json"),
       [.listDir WORKFLOWS_DIR,
        .warned ("Using fallback workflow: " ++ pathJoin WORKFLOWS_DIR "b.json")]) ∧
    selectWorkflowPath emptyFS (.ok ["readme.txt"]) =
      (.noFiles, [.listDir WORKFLOWS_DIR]) :=
  ⟨(selectWorkflowPath_first_listed emptyFS (.ok ["b.json", "a.json"])
      ["b.json", "a.json"] rfl rfl).1 "b.json" ["a.json"] (by decide),
   (selectWorkflowPath_first_listed emptyFS (.ok ["readme.txt"])
      ["readme.txt"] rfl rfl).2 (by decide)⟩

/-! ## Claim C6 -/

/-- Counterexample to C6 as stated: the 400 missing-field response does
NOT match the shape `{job_id, status, prompt_id?, outputs?, error?,
timestamp}` — its body carries only the `error` key; `job_id`, `status`
and `timestamp` are absent. -/
theorem predict_missing_field_body_shape :
    (predict baseEnv (some [("audio_s3", "s3://b/a.wav")])).1 = 400 ∧
    ((predict baseEnv (some [("audio_s3", "s3://b/a.wav")])).2.1.map
      Prod.fst) = ["error"] ∧
    "job_id" ∉ ((predict baseEnv (some [("audio_s3", "s3://b/a.wav")])).2.1.map
      Prod.fst) ∧
    "status" ∉ ((predict baseEnv (some [("audio_s3", "s3://b/a.wav")])).2.1.map
      Prod.fst) ∧
    "timestamp" ∉ ((predict baseEnv
      (some [("audio_s3", "s3://b/a.wav")])).2.1.map Prod.fst) := by
  refine ⟨?_, ?_, ?_, ?_, ?_⟩ <;> decide

/-- C6 as amended: every response of the handler is one of exactly three
shapes — 200 with keys `[job_id, status, prompt_id, outputs, timestamp]`
(a COMPLETED job), 500 with keys `[job_id, status, error, timestamp]`
(an exception-driven FAILED job), or a bare `[error]` body carried by
the two 400 validation rejections and by the no-workflow-files 500. -/
theorem predict_response_shape (env : PredictEnv)
    (req : Option (List (String × String))) :
    ((predict env req).1 = 200 ∧
      (predict env req).2.1.map Prod.fst =
        ["job_id", "status", "prompt_id", "outputs", "timestamp"]) ∨
    ((predict env req).1 = 500 ∧
      (predict env req).2.1.map Prod.fst =
        ["job_id", "status", "error", "timestamp"]) ∨
    (((predict env req).1 = 400 ∨ (predict env req).1 = 500) ∧
      (predict env req).2.1.map Prod.fst = ["error"]) := by
  cases req with
  | none => exact Or.inr (Or.inr ⟨Or.inl rfl, rfl⟩)
  | some data =>
    cases hE : data.isEmpty with
    | true =>
      refine Or.inr (Or.inr ⟨Or.inl ?_, ?_⟩) <;> simp [predict, hE]
    | false =>
      cases hfm : firstMissing data with
      | some f =>
        refine Or.inr (Or.inr ⟨Or.inl ?_, ?_⟩) <;> simp [predict, hE, hfm]
      | none =>
        rcases hpc : predictCore env data with ⟨ex, effs⟩
        cases ex with
        | ok pid arts =>
          refine Or.inl ⟨?_, ?_⟩ <;> simp [predict, hE, hfm, hpc, okBody]
        | noWorkflowFiles =>
          refine Or.inr (Or.inr ⟨Or.inr ?_, ?_⟩) <;>
            simp [predict, hE, hfm, hpc]
        | exc e =>
          refine Or.inr (Or.inl ⟨?_, ?_⟩) <;>
            simp [predict, hE, hfm, hpc, failedBody]

end ComfyCloud
